import Mathlib

/-!
Verification of the svg_renderer repository: a shallow embedding of the
unit/viewport resolver (parser.py), the style cascade resolver (style.py),
the path data interpreter (renderer.py) and the layer lookup (layer.py),
with theorems checking the natural-language specification's claims.

Numbers are modelled by ℚ (Python floats are IEEE doubles; every concrete
value appearing in the claims is exactly representable, and the formulas
proved are the same formulas the code computes). String manipulation is
done on `List Char` so that everything reduces in the kernel.
-/

/-- Whitespace trim on both ends, modelling Python `str.strip()`. -/
def trimChars (l : List Char) : List Char :=
  ((l.dropWhile Char.isWhitespace).reverse.dropWhile Char.isWhitespace).reverse

/-- Helper for `splitChar` carrying the accumulator of the current field. -/
def splitCharAux (sep : Char) : List Char → List Char → List (List Char)
  | [], acc => [acc.reverse]
  | c :: rest, acc =>
    if c = sep then acc.reverse :: splitCharAux sep rest []
    else splitCharAux sep rest (c :: acc)

/-- Python `str.split(sep)` for a single-character separator (keeps empty fields). -/
def splitChar (sep : Char) (l : List Char) : List (List Char) :=
  splitCharAux sep l []

/-- Split at the first occurrence of `sep`, modelling Python `str.split(sep, 1)`
when `sep` is known to occur: returns the part before and the part after. -/
def splitFirst (sep : Char) : List Char → List Char × List Char
  | [] => ([], [])
  | c :: rest =>
    if c = sep then ([], rest)
    else
      let (a, b) := splitFirst sep rest
      (c :: a, b)

/-- Helper for `splitWS`. -/
def splitWSAux : List Char → List Char → List (List Char)
  | [], acc => if acc.isEmpty then [] else [acc.reverse]
  | c :: rest, acc =>
    if c.isWhitespace then
      if acc.isEmpty then splitWSAux rest [] else acc.reverse :: splitWSAux rest []
    else splitWSAux rest (c :: acc)

/-- Python `str.split()` with no argument: split on whitespace runs, dropping
empty fields. -/
def splitWS (l : List Char) : List (List Char) :=
  splitWSAux l []

/-- Python `str.endswith(suf)`. -/
def endsWithChars (l suf : List Char) : Bool :=
  decide (List.drop (l.length - suf.length) l = suf) && decide (suf.length ≤ l.length)

/-- Maximal run of decimal digits at the front: returns (digits, rest). -/
def takeDigits : List Char → List Char × List Char
  | [] => ([], [])
  | c :: rest =>
    if c.isDigit then
      let (d, r) := takeDigits rest
      (c :: d, r)
    else ([], c :: rest)

/-- Value of a list of decimal digit characters. -/
def digitsToNat (l : List Char) : Nat :=
  l.foldl (fun a c => a * 10 + (c.toNat - 48)) 0

/-- Value of a fractional digit string: "25" ↦ 25/100. -/
def fracVal (l : List Char) : ℚ :=
  (digitsToNat l : ℚ) / 10 ^ l.length

/-- Mantissa together with a fully-consumed optional exponent, the tail of the
grammar accepted by Python `float()`: the remaining characters must be empty
or a complete exponent `[eE][+-]?digits`. -/
def pyFloatExp (sgn m : ℚ) : List Char → Option ℚ
  | [] => some (sgn * m)
  | c :: rest =>
    if c = 'e' ∨ c = 'E' then
      let (epos, r1) : Bool × List Char :=
        match rest with
        | '+' :: r => (true, r)
        | '-' :: r => (false, r)
        | r => (true, r)
      let (ed, r2) := takeDigits r1
      if ed.isEmpty then none
      else if r2.isEmpty then
        some (sgn * m * (if epos then (10 : ℚ) ^ digitsToNat ed else 1 / 10 ^ digitsToNat ed))
      else none
    else none

/-- Core of Python `float(s)` on an already-stripped character list: optional
sign, then `digits [. digits] | . digits`, then optional exponent, consuming
the whole input.  (The special forms `inf`/`nan` and underscore separators
accepted by CPython are outside the fragment used by this repository and are
not modelled.) -/
def pyFloatChars (l : List Char) : Option ℚ :=
  let (sgn, l1) : ℚ × List Char :=
    match l with
    | '+' :: r => (1, r)
    | '-' :: r => (-1, r)
    | r => (1, r)
  let (d1, l2) := takeDigits l1
  match l2 with
  | '.' :: l3 =>
    let (d2, l4) := takeDigits l3
    if d1.isEmpty && d2.isEmpty then none
    else pyFloatExp sgn ((digitsToNat d1 : ℚ) + fracVal d2) l4
  | _ =>
    if d1.isEmpty then none
    else pyFloatExp sgn (digitsToNat d1 : ℚ) l2

/-- Python `float(s)`: strips surrounding whitespace, then parses. -/
def pyFloat (s : String) : Option ℚ :=
  pyFloatChars (trimChars s.data)

/-- Python `round(q)` (round half to even), composed with `int(...)`:
the result is exact on floats that are integral, so the composition is the
half-to-even integer rounding. -/
def pyRound (q : ℚ) : Int :=
  let n := ⌊q⌋
  let frac := q - n
  if frac < 1 / 2 then n
  else if 1 / 2 < frac then n + 1
  else if n % 2 = 0 then n else n + 1

/-- Python `int(q)` on a float: truncation toward zero. -/
def pyInt (q : ℚ) : Int :=
  if 0 ≤ q then ⌊q⌋ else -⌊-q⌋

/-- Python `str.lower()` (the inputs in scope are ASCII). -/
def pyLower (l : List Char) : List Char :=
  l.map Char.toLower

/-! ## Unit and viewport resolver (parser.py `SVGParser`) -/

/-- The attributes of a loaded SVG document's root element that the resolver
reads (`viewBox`, `width`, `height`); `none` models a missing attribute. -/
structure SVGDoc where
  viewBox : Option String
  width : Option String
  height : Option String
deriving DecidableEq

/-- Errors of `get_viewbox` (both are `ValueError` in the source; the spec
names them `MissingViewport` and `MalformedDimension`). -/
inductive VBErr
  | missingViewport
  | malformedDimension
deriving DecidableEq

/-- Suffix list stripped by `SVGParser._parse_dimension`, in source order. -/
def dimensionUnits : List (List Char) :=
  [['p','x'], ['p','t'], ['m','m'], ['c','m'], ['i','n'], ['p','c'], ['e','m'], ['e','x'], ['%']]

/-- `SVGParser._parse_dimension`: strip the first matching unit suffix, then
parse as a float; failure raises (`Cannot parse dimension`). -/
def parse_dimension (value : String) : Except VBErr ℚ :=
  let v := value.data
  let stripped :=
    match dimensionUnits.find? (fun u => endsWithChars v u) with
    | some u => v.take (v.length - u.length)
    | none => v
  match pyFloatChars (trimChars stripped) with
  | some q => .ok q
  | none => .error .malformedDimension

/-- `SVGParser.get_viewbox`: parse the `viewBox` attribute as four
whitespace-separated floats; when absent or empty, fall back to the
unit-stripped `width`/`height` attributes as `(0, 0, width, height)`. -/
def get_viewbox (doc : SVGDoc) : Except VBErr (ℚ × ℚ × ℚ × ℚ) :=
  let viewbox_str := doc.viewBox.getD ""
  if viewbox_str = "" then
    let width := doc.width.getD ""
    let height := doc.height.getD ""
    if width ≠ "" ∧ height ≠ "" then
      match parse_dimension width, parse_dimension height with
      | .ok w, .ok h => .ok (0, 0, w, h)
      | _, _ => .error .malformedDimension
    else .error .missingViewport
  else
    let parts := splitWS viewbox_str.data
    if parts.length ≠ 4 then .error .malformedDimension
    else
      match parts.mapM pyFloatChars with
      | some [x, y, w, h] => .ok (x, y, w, h)
      | _ => .error .malformedDimension

/-- `SVGParser.get_document_unit`: scan the `width` attribute for a known unit
suffix in the source's fixed order; default to `px`. -/
def get_document_unit (doc : SVGDoc) : String :=
  let w := (doc.width.getD "").data
  if endsWithChars w ['m','m'] then "mm"
  else if endsWithChars w ['c','m'] then "cm"
  else if endsWithChars w ['i','n'] then "in"
  else if endsWithChars w ['p','t'] then "pt"
  else if endsWithChars w ['p','c'] then "pc"
  else "px"

/-- The `unit_to_inches` table of `SVGParser.calculate_pixel_size`, including
the `.get(unit, 1.0 / 96.0)` default. -/
def unit_to_inches (u : String) : ℚ :=
  if u = "px" then 1 / 96
  else if u = "pt" then 1 / 72
  else if u = "pc" then 1 / 6
  else if u = "mm" then 1 / 25.4
  else if u = "cm" then 1 / 2.54
  else if u = "in" then 1
  else 1 / 96

/-- `SVGParser.calculate_pixel_size`: pixel dimensions at the given DPI. -/
def calculate_pixel_size (doc : SVGDoc) (dpi : ℚ) : Except VBErr (Int × Int) :=
  match get_viewbox doc with
  | .error e => .error e
  | .ok (_, _, vb_width, vb_height) =>
    let inches_per_unit := unit_to_inches (get_document_unit doc)
    .ok (pyRound (vb_width * inches_per_unit * dpi), pyRound (vb_height * inches_per_unit * dpi))

/-- `SVGParser.calculate_scale`: scale factor from viewBox units to pixels. -/
def calculate_scale (doc : SVGDoc) (dpi : ℚ) : Except VBErr ℚ :=
  match get_viewbox doc with
  | .error e => .error e
  | .ok (_, _, vb_width, _) =>
    match calculate_pixel_size doc dpi with
    | .error e => .error e
    | .ok (pixel_width, _) =>
      if vb_width = 0 then .ok 1
      else .ok ((pixel_width : ℚ) / vb_width)

/-- The `inchesPerUnit` table exactly as the spec states it (claim C2):
`px=1/96, pt=1/72, pc=1/6, mm=1/25.4, cm=1/2.54, in=1`. -/
def inchesPerUnit (u : String) : ℚ :=
  if u = "px" then 1 / 96
  else if u = "pt" then 1 / 72
  else if u = "pc" then 1 / 6
  else if u = "mm" then 1 / 25.4
  else if u = "cm" then 1 / 2.54
  else 1

/-! ## Renderer construction (api.py `SVGRenderer._create_renderer`,
renderer.py `Renderer.__init__`) -/

/-- The state set up by `Renderer.__init__` (renderer.py): it accepts exactly
two arguments, `width` and `height`; there is no scale parameter and no scale
attribute anywhere in the class. -/
structure Renderer where
  width : Int
  height : Int
deriving DecidableEq

/-- Errors surfacing from `SVGRenderer._create_renderer`. -/
inductive CreateErr
  | typeError
  | vbErr (e : VBErr)
deriving DecidableEq

/-- The call `Renderer(width, height, scale)` at api.py line 49: the source
constructor `Renderer.__init__(self, width, height)` (renderer.py line 17)
declares no third parameter, so this three-argument call raises `TypeError`
at runtime. -/
def rendererNew3 (_width _height : Int) (_scale : ℚ) : Except CreateErr Renderer :=
  .error .typeError

/-- `SVGRenderer._create_renderer`: with a DPI, compute pixel size and scale
and call `Renderer(width, height, scale)`; without one (legacy mode), use the
viewBox width/height truncated to int. -/
def create_renderer (doc : SVGDoc) (dpi : Option ℚ) : Except CreateErr Renderer :=
  match dpi with
  | some d =>
    match calculate_pixel_size doc d with
    | .error e => .error (.vbErr e)
    | .ok (width, height) =>
      match calculate_scale doc d with
      | .error e => .error (.vbErr e)
      | .ok scale => rendererNew3 width height scale
  | none =>
    match get_viewbox doc with
    | .error e => .error (.vbErr e)
    | .ok (_, _, width, height) => .ok ⟨pyInt width, pyInt height⟩

/-! ## Path data interpreter (renderer.py `Renderer._parse_path_data`) -/

/-- A token of the path mini-language, as produced by the source's
`re.findall` tokenization: a command letter or a number (the source keeps the
numeric text and converts with `float()` at use; the conversion is total on
regex-matched numbers, so the value is carried directly). -/
inductive Tok
  | cmd (c : Char)
  | num (q : ℚ)
deriving DecidableEq

/-- A drawing primitive issued to the paint surface (cairo context calls). -/
inductive Prim
  | moveTo (x y : ℚ)
  | lineTo (x y : ℚ)
  | curveTo (x1 y1 x2 y2 x y : ℚ)
  | closePath
deriving DecidableEq

/-- `token in 'MmLlCcZz'` for a single-character token. -/
def isPathCmdChar (c : Char) : Bool :=
  c = 'M' ∨ c = 'm' ∨ c = 'L' ∨ c = 'l' ∨ c = 'C' ∨ c = 'c' ∨ c = 'Z' ∨ c = 'z'

/-- One leftmost match of the numeric alternative
`[-+]?[0-9]*\.?[0-9]+(?:[eE][-+]?[0-9]+)?` at the head of the input,
following the backtracking behaviour of the Python regex engine (greedy
`[0-9]*`, optional dot, mandatory final digit run, optional exponent);
returns the value and the rest of the input. -/
def matchNumber (l : List Char) : Option (ℚ × List Char) :=
  let (sgn, l1) : ℚ × List Char :=
    match l with
    | '+' :: r => (1, r)
    | '-' :: r => (-1, r)
    | r => (1, r)
  let (d1, l2) := takeDigits l1
  match l2 with
  | '.' :: l3 =>
    let (d2, l4) := takeDigits l3
    if ¬ d2.isEmpty then
      -- greedy success: mantissa `d1 . d2`, optional exponent
      let (em, l5) := matchNumExp l4
      some (sgn * ((digitsToNat d1 : ℚ) + fracVal d2) * em, l5)
    else if ¬ d1.isEmpty then
      -- backtrack over the dot: match just the integer digits
      some (sgn * (digitsToNat d1 : ℚ), '.' :: l3)
    else none
  | _ =>
    if ¬ d1.isEmpty then
      let (em, l5) := matchNumExp l2
      some (sgn * (digitsToNat d1 : ℚ) * em, l5)
    else none
where
  /-- The optional exponent group `(?:[eE][-+]?[0-9]+)?`: consumed greedily
  when fully present, otherwise left alone; returns a multiplier and rest. -/
  matchNumExp (l : List Char) : ℚ × List Char :=
    match l with
    | c :: rest =>
      if c = 'e' ∨ c = 'E' then
        let (epos, r1) : Bool × List Char :=
          match rest with
          | '+' :: r => (true, r)
          | '-' :: r => (false, r)
          | r => (true, r)
        let (ed, r2) := takeDigits r1
        if ed.isEmpty then (1, l)
        else ((if epos then (10 : ℚ) ^ digitsToNat ed else 1 / 10 ^ digitsToNat ed), r2)
      else (1, l)
    | [] => (1, [])

/-- Fuel-driven scan of
`re.findall(r'[MmLlCcZz]|[-+]?[0-9]*\.?[0-9]+(?:[eE][-+]?[0-9]+)?', s)`:
at each position, a command letter matches first, then a number, otherwise
the character is skipped.  A successful number match always consumes at least
one character, so `fuel = length` never runs out. -/
def tokenizeAux : Nat → List Char → List Tok
  | 0, _ => []
  | _ + 1, [] => []
  | fuel + 1, c :: rest =>
    if isPathCmdChar c then .cmd c :: tokenizeAux fuel rest
    else
      match matchNumber (c :: rest) with
      | some (q, rest2) => .num q :: tokenizeAux fuel rest2
      | none => tokenizeAux fuel rest

/-- Tokenization of a path data string. -/
def tokenize (s : String) : List Tok :=
  tokenizeAux s.data.length s.data

/-- The exceptions the interpreter loop can raise: `IndexError` from
`tokens[i + k]` past the end of the token array, and `ValueError` from
`float(token)` applied to a command letter. -/
inductive PathErr
  | indexError
  | valueError
deriving DecidableEq

/-- The interpreter loop of `Renderer._parse_path_data`: walks the token
array with a current point and active command, returning the primitives
issued (in order, up to the point of any failure) together with the raised
exception, if any.  List position mirrors the source's index `i`; reading
`tokens[i + k]` beyond the end is `indexError`, and `float` of a command
letter at `tokens[i + k]` is `valueError`. -/
def runPath : List Tok → ℚ → ℚ → Option Char → List Prim × Option PathErr
  | [], _, _, _ => ([], none)
  | .cmd c :: rest, cx, cy, _ => runPath rest cx cy (some c)
  | .num q :: rest, cx, cy, cmd =>
    if cmd = some 'M' ∨ cmd = some 'm' then
      match rest with
      | [] => ([], some .indexError)
      | .cmd _ :: _ => ([], some .valueError)
      | .num qy :: rest2 =>
        let (nx, ny) := if cmd = some 'M' then (q, qy) else (cx + q, cy + qy)
        let (ps, e) := runPath rest2 nx ny (some (if cmd = some 'M' then 'L' else 'l'))
        (.moveTo nx ny :: ps, e)
    else if cmd = some 'L' ∨ cmd = some 'l' then
      match rest with
      | [] => ([], some .indexError)
      | .cmd _ :: _ => ([], some .valueError)
      | .num qy :: rest2 =>
        let (nx, ny) := if cmd = some 'L' then (q, qy) else (cx + q, cy + qy)
        let (ps, e) := runPath rest2 nx ny cmd
        (.lineTo nx ny :: ps, e)
    else if cmd = some 'C' ∨ cmd = some 'c' then
      match rest with
      | [] => ([], some .indexError)
      | .cmd _ :: _ => ([], some .valueError)
      | .num y1 :: rest1 =>
        match rest1 with
        | [] => ([], some .indexError)
        | .cmd _ :: _ => ([], some .valueError)
        | .num x2 :: rest2 =>
          match rest2 with
          | [] => ([], some .indexError)
          | .cmd _ :: _ => ([], some .valueError)
          | .num y2 :: rest3 =>
            match rest3 with
            | [] => ([], some .indexError)
            | .cmd _ :: _ => ([], some .valueError)
            | .num xe :: rest4 =>
              match rest4 with
              | [] => ([], some .indexError)
              | .cmd _ :: _ => ([], some .valueError)
              | .num ye :: rest5 =>
                let prim : Prim :=
                  if cmd = some 'C' then .curveTo q y1 x2 y2 xe ye
                  else .curveTo (cx + q) (cy + y1) (cx + x2) (cy + y2) (cx + xe) (cy + ye)
                let (nx, ny) := if cmd = some 'C' then (xe, ye) else (cx + xe, cy + ye)
                let (ps, e) := runPath rest5 nx ny cmd
                (prim :: ps, e)
    else if cmd = some 'Z' ∨ cmd = some 'z' then
      -- the number token is consumed (`i += 1`) and the command cleared
      let (ps, e) := runPath rest cx cy none
      (.closePath :: ps, e)
    else
      -- unknown/no active command: skip the token
      runPath rest cx cy cmd

/-- `Renderer._parse_path_data`: tokenize and interpret, starting from the
current point `(0, 0)` and no active command. -/
def parse_path_data (path_data : String) : List Prim × Option PathErr :=
  runPath (tokenize path_data) 0 0 none

/-! ## Style cascade resolver (style.py `StyleParser`) -/

/-- An SVG element as the style resolver sees it: its attribute list
(attribute name to raw value, at most one binding per name). -/
structure Element where
  attrs : List (String × String)
deriving DecidableEq

/-- `element.get(name)`: the attribute's value, or `None` when absent. -/
def Element.get (e : Element) (name : String) : Option String :=
  (e.attrs.find? (fun p => p.1 == name)).map (·.2)

/-- Python dict lookup `d.get(k)` on an insertion-ordered dictionary
modelled as an association list. -/
def dictGet (d : List (String × String)) (k : String) : Option String :=
  (d.find? (fun p => p.1 == k)).map (·.2)

/-- `k in d` on the dictionary model. -/
def dictHas (d : List (String × String)) (k : String) : Bool :=
  d.any (fun p => p.1 == k)

/-- Python dict assignment `d[k] = v`: update in place when the key exists,
otherwise append (insertion order preserved). -/
def dictSet (d : List (String × String)) (k v : String) : List (String × String) :=
  if dictHas d k then d.map (fun p => if p.1 == k then (p.1, v) else p)
  else d ++ [(k, v)]

/-- The first phase of `StyleParser.parse_style`: the element's inline
`style` attribute split on `;`, each declaration split on the first `:`,
keys and values stripped. -/
def inline_styles (e : Element) : List (String × String) :=
  let style_attr := (e.get "style").getD ""
  if style_attr = "" then []
  else
    (splitChar ';' style_attr.data).foldl
      (fun styles declaration =>
        let d := trimChars declaration
        if d.contains ':' then
          let (prop, value) := splitFirst ':' d
          dictSet styles (String.mk (trimChars prop)) (String.mk (trimChars value))
        else styles)
      []

/-- The fixed presentation-attribute list of `StyleParser.parse_style`,
in source order. -/
def svg_style_attrs : List String :=
  ["fill", "fill-opacity", "stroke", "stroke-width",
   "stroke-opacity", "stroke-linejoin", "stroke-linecap",
   "stroke-miterlimit", "stroke-dasharray", "opacity"]

/-- `StyleParser.parse_style`: inline style declarations first, then each
presentation attribute only when its key is not already present. -/
def parse_style (e : Element) : List (String × String) :=
  svg_style_attrs.foldl
    (fun styles attr =>
      if dictHas styles attr then styles
      else
        match e.get attr with
        | some value => dictSet styles attr value
        | none => styles)
    (inline_styles e)

/-- The `ValueError`s of the style decoders (the spec names them
`UnsupportedColorFormat`, invalid-hex, and `InvalidOpacity`). -/
inductive StyleErr
  | invalidHex
  | unsupportedColor
  | invalidOpacity
deriving DecidableEq

/-- `StyleParser.NAMED_COLORS`, in source order. -/
def NAMED_COLORS : List (String × (Nat × Nat × Nat)) :=
  [("black", (0, 0, 0)), ("white", (255, 255, 255)), ("red", (255, 0, 0)),
   ("green", (0, 128, 0)), ("blue", (0, 0, 255)), ("yellow", (255, 255, 0)),
   ("cyan", (0, 255, 255)), ("magenta", (255, 0, 255)), ("gray", (128, 128, 128)),
   ("grey", (128, 128, 128)), ("silver", (192, 192, 192)), ("maroon", (128, 0, 0)),
   ("olive", (128, 128, 0)), ("lime", (0, 255, 0)), ("aqua", (0, 255, 255)),
   ("teal", (0, 128, 128)), ("navy", (0, 0, 128)), ("fuchsia", (255, 0, 255)),
   ("purple", (128, 0, 128))]

/-- A lowercase hexadecimal digit's value (`int(c, 16)` after `.lower()`). -/
def hexDigitVal (c : Char) : Option Nat :=
  if '0' ≤ c ∧ c ≤ '9' then some (c.toNat - 48)
  else if 'a' ≤ c ∧ c ≤ 'f' then some (c.toNat - 87)
  else none

/-- `int(two_hex_digits, 16)`. -/
def hexByte (a b : Char) : Option Nat := do
  let x ← hexDigitVal a
  let y ← hexDigitVal b
  some (x * 16 + y)

/-- The three byte pairs of a six-character hex color. -/
def parseHex6 : List Char → Option (Nat × Nat × Nat)
  | [a, b, c, d, e, f] => do
    let r ← hexByte a b
    let g ← hexByte c d
    let bl ← hexByte e f
    some (r, g, bl)
  | _ => none

/-- Skip leading whitespace (`\s*`). -/
def skipWS (l : List Char) : List Char :=
  l.dropWhile Char.isWhitespace

/-- Consume exactly the expected character. -/
def expectChar (c : Char) : List Char → Option (List Char)
  | x :: r => if x = c then some r else none
  | [] => none

/-- Consume `\d+` and return its integer value. -/
def takeDigits1 (l : List Char) : Option (Nat × List Char) :=
  let (d, r) := takeDigits l
  if d.isEmpty then none else some (digitsToNat d, r)

/-- `re.match(r'rgb\s*\(\s*(\d+)\s*,\s*(\d+)\s*,\s*(\d+)\s*\)', s)`:
anchored at the start, trailing characters permitted. -/
def rgbMatch (l : List Char) : Option (Nat × Nat × Nat) := do
  let r ← expectChar 'r' l
  let r ← expectChar 'g' r
  let r ← expectChar 'b' r
  let r ← expectChar '(' (skipWS r)
  let (n1, r) ← takeDigits1 (skipWS r)
  let r ← expectChar ',' (skipWS r)
  let (n2, r) ← takeDigits1 (skipWS r)
  let r ← expectChar ',' (skipWS r)
  let (n3, r) ← takeDigits1 (skipWS r)
  let _ ← expectChar ')' (skipWS r)
  some (n1, n2, n3)

/-- An RGB triple of byte values as `[0,1]` floats. -/
def rgbOf (t : Nat × Nat × Nat) : ℚ × ℚ × ℚ :=
  ((t.1 : ℚ) / 255, (t.2.1 : ℚ) / 255, (t.2.2 : ℚ) / 255)

/-- `StyleParser.get_color`: `none`/empty give no color; `#RGB` doubles each
digit; `#RRGGBB` decodes byte pairs; otherwise the named-color table, then
the `rgb(r,g,b)` pattern, else `Unsupported color format`.  A `#`-string of
another length falls through to the later cases, as in the source. -/
def get_color (color_str : String) : Except StyleErr (Option (ℚ × ℚ × ℚ)) :=
  if color_str = "" ∨ pyLower color_str.data = "none".data then .ok none
  else
    let cs := pyLower (trimChars color_str.data)
    let hexResult : Option (Except StyleErr (Option (ℚ × ℚ × ℚ))) :=
      match cs with
      | '#' :: rest =>
        let hex_color := if rest.length = 3 then (rest.map (fun c => [c, c])).flatten else rest
        if hex_color.length = 6 then
          some (match parseHex6 hex_color with
            | some t => .ok (some (rgbOf t))
            | none => .error .invalidHex)
        else none
      | _ => none
    match hexResult with
    | some res => res
    | none =>
      match NAMED_COLORS.find? (fun p => p.1.data == cs) with
      | some (_, t) => .ok (some (rgbOf t))
      | none =>
        match rgbMatch cs with
        | some t => .ok (some (rgbOf t))
        | none => .error .unsupportedColor

/-- `StyleParser.get_opacity`: empty defaults to 1.0; a trailing `%` divides
the prefix by 100; otherwise parse as float and clamp to `[0,1]`;
unparsable input raises `InvalidOpacity`. -/
def get_opacity (opacity_str : String) : Except StyleErr ℚ :=
  if opacity_str = "" then .ok 1
  else
    let t := trimChars opacity_str.data
    if endsWithChars t ['%'] then
      match pyFloat (String.mk (t.take (t.length - 1))) with
      | some x => .ok (x / 100)
      | none => .error .invalidOpacity
    else
      match pyFloat (String.mk t) with
      | some x => .ok (max 0 (min 1 x))
      | none => .error .invalidOpacity

/-- `StyleParser.get_fill`: the resolved `fill` property when present and
non-empty (Python truthiness) is decoded by `get_color`; otherwise no fill. -/
def get_fill (e : Element) : Except StyleErr (Option (ℚ × ℚ × ℚ)) :=
  match dictGet (parse_style e) "fill" with
  | some fill => if fill = "" then .ok none else get_color fill
  | none => .ok none

/-- `StyleParser.get_stroke`: the resolved `stroke` property when present and
non-empty is decoded by `get_color`; otherwise no stroke. -/
def get_stroke (e : Element) : Except StyleErr (Option (ℚ × ℚ × ℚ)) :=
  match dictGet (parse_style e) "stroke" with
  | some stroke => if stroke = "" then .ok none else get_color stroke
  | none => .ok none

/-! ## Layer lookup (layer.py `LayerExtractor`) -/

/-- One Inkscape layer: a `g` element with `inkscape:groupmode="layer"`,
holding its `inkscape:label` and `id` attributes (`none` when absent). -/
structure Layer where
  label : Option String
  id : Option String
deriving DecidableEq

/-- The XML tree collaborator, reduced to what the extractor queries: the
document-order list of layer `g` elements (the `.//svg:g[@inkscape:groupmode
="layer"]` xpath result). -/
structure LayerDoc where
  layers : List Layer
deriving DecidableEq

/-- Python truthiness of an optional string attribute (`if label:`). -/
def optTruthy : Option String → Bool
  | some s => s ≠ ""
  | none => false

/-- The display name logic of the `get_layer_names` loop body: the label when
truthy, else the `id` when truthy, else nothing. -/
def layerDisplayName (l : Layer) : Option String :=
  if optTruthy l.label then l.label
  else if optTruthy l.id then l.id
  else none

/-- `LayerExtractor.get_layer_names`: accumulate each layer's label (or id
fallback) in document order. -/
def get_layer_names (d : LayerDoc) : List String :=
  d.layers.foldl
    (fun names l =>
      match layerDisplayName l with
      | some n => names ++ [n]
      | none => names)
    []

/-- `LayerExtractor.get_layer_by_name`: first layer whose `inkscape:label`
equals the name (`label == layer_name`; an absent label never matches). -/
def get_layer_by_name (d : LayerDoc) (layer_name : String) : Option Layer :=
  d.layers.find? (fun l => l.label == some layer_name)

/-- `LayerExtractor.get_layer_by_id`: first layer whose `id` attribute equals
the identifier. -/
def get_layer_by_id (d : LayerDoc) (layer_id : String) : Option Layer :=
  d.layers.find? (fun l => l.id == some layer_id)

/-- A single-quote string, kept as a character code. -/
def squote : String := String.mk [Char.ofNat 39]

/-- Python `', '.join(names)`. -/
def joinComma : List String → String
  | [] => ""
  | [x] => x
  | x :: xs => x ++ ", " ++ joinComma xs

/-- The `LayerNotFound` message of `LayerExtractor.get_layer`, enumerating the
available layer names (or `none` when there are none). -/
def layerNotFoundMsg (identifier : String) (names : List String) : String :=
  "Layer " ++ squote ++ identifier ++ squote ++ " not found. Available layers: " ++
    (if names.isEmpty then "none" else joinComma names)

/-- `LayerExtractor.get_layer`: by name first, then by id, else the
`LayerNotFound` error carrying the available-layers message. -/
def get_layer (d : LayerDoc) (identifier : String) : Except String Layer :=
  match get_layer_by_name d identifier with
  | some l => .ok l
  | none =>
    match get_layer_by_id d identifier with
    | some l => .ok l
    | none => .error (layerNotFoundMsg identifier (get_layer_names d))

/-! ## Concrete inputs used by the claims -/

/-- An A4 document declared in millimetres, no `viewBox` (the spec's 210mm
example and the DPI test fixture size). -/
def docA4mm : SVGDoc := ⟨none, some "210mm", some "297mm"⟩

/-- A document whose `viewBox` declares a negative width. -/
def docNegViewBox : SVGDoc := ⟨some "0 0 -5 10", none, none⟩

/-- The element of the cascade example: `style="fill:#000000"` together with
the presentation attribute `fill="#ffffff"`. -/
def elemFillBoth : Element := ⟨[("style", "fill:#000000"), ("fill", "#ffffff")]⟩

/-- A second cascade element, used as the witness input:
`style="stroke:blue"` with attribute `stroke="red"`. -/
def elemStrokeBoth : Element := ⟨[("style", "stroke:blue"), ("stroke", "red")]⟩

/-- An element with no styling at all. -/
def elemBare : Element := ⟨[]⟩

/-- A document with two labelled layers. -/
def docTwoLayers : LayerDoc :=
  ⟨[⟨some "Layer A", some "layer1"⟩, ⟨some "Layer B", some "layer2"⟩]⟩

/-- Equality of `Except` results is decidable, so concrete runs of the
embedded functions can be checked by `decide`. -/
instance {ε α : Type} [DecidableEq ε] [DecidableEq α] : DecidableEq (Except ε α) := fun x y =>
  match x, y with
  | .ok a, .ok b =>
    if h : a = b then isTrue (by rw [h]) else isFalse (fun hc => h (Except.ok.inj hc))
  | .error a, .error b =>
    if h : a = b then isTrue (by rw [h]) else isFalse (fun hc => h (Except.error.inj hc))
  | .ok _, .error _ => isFalse (fun hc => Except.noConfusion hc)
  | .error _, .ok _ => isFalse (fun hc => Except.noConfusion hc)

/-! ## Helper lemmas -/

/-- A successful `find?` on a list is unchanged by appending. -/
theorem find?_append_of_some {α : Type} (p : α → Bool) (l1 l2 : List α) (x : α)
    (h : l1.find? p = some x) : (l1 ++ l2).find? p = some x := by
  induction l1 with
  | nil => simp [List.find?] at h
  | cons a t ih =>
    rw [List.cons_append]
    cases hp : p a with
    | true =>
      rw [List.find?_cons_of_pos _ hp] at h ⊢
      exact h
    | false =>
      rw [List.find?_cons_of_neg _ (by simp [hp])] at h ⊢
      exact ih h

/-- A present dictionary binding survives appending entries on the right. -/
theorem dictGet_append_left (d e : List (String × String)) (k v : String)
    (h : dictGet d k = some v) : dictGet (d ++ e) k = some v := by
  unfold dictGet at h ⊢
  cases hf : d.find? (fun p => p.1 == k) with
  | none => rw [hf] at h; simp at h
  | some p => rw [find?_append_of_some _ _ _ _ hf]; rw [hf] at h; exact h

/-- One step of the presentation-attribute loop of `parse_style` preserves any
binding already present. -/
theorem dictGet_parse_step (e : Element) (st : List (String × String)) (attr k v : String)
    (h : dictGet st k = some v) :
    dictGet
      (if dictHas st attr then st
       else
         match e.get attr with
         | some value => dictSet st attr value
         | none => st) k = some v := by
  by_cases hhas : dictHas st attr
  · rw [if_pos hhas]; exact h
  · rw [if_neg hhas]
    cases hg : e.get attr with
    | none => exact h
    | some value =>
      show dictGet (dictSet st attr value) k = some v
      unfold dictSet
      rw [if_neg (by simpa using hhas)]
      exact dictGet_append_left st [(attr, value)] k v h

/-- The whole presentation-attribute loop preserves any binding already
present in the inline-style dictionary. -/
theorem dictGet_parse_fold (e : Element) (attrs : List String)
    (st : List (String × String)) (k v : String)
    (h : dictGet st k = some v) :
    dictGet
      (attrs.foldl
        (fun styles attr =>
          if dictHas styles attr then styles
          else
            match e.get attr with
            | some value => dictSet styles attr value
            | none => styles)
        st) k = some v := by
  induction attrs generalizing st with
  | nil => exact h
  | cons a t ih => exact ih _ (dictGet_parse_step e st a k v h)

/-- The append-accumulator loop of `get_layer_names` is `filterMap`. -/
theorem names_foldl_eq (ls : List Layer) (acc : List String) :
    ls.foldl
      (fun names l =>
        match layerDisplayName l with
        | some n => names ++ [n]
        | none => names)
      acc = acc ++ ls.filterMap layerDisplayName := by
  induction ls generalizing acc with
  | nil => simp
  | cons a t ih =>
    rw [List.foldl_cons, List.filterMap_cons]
    cases h : layerDisplayName a with
    | none => rw [ih]
    | some n => rw [ih]; simp

/-! ## The claims -/

/-- C1: for a loaded document, a render call with a target resolution is
claimed to construct a renderer with the DPI-derived pixel size and scale,
and a call without one to use legacy viewbox-truncation mode.  The code
violates the DPI half: `_create_renderer` calls `Renderer(width, height,
scale)` but `Renderer.__init__` accepts only `(width, height)`, so every
DPI-mode render raises `TypeError`; the legacy half behaves as claimed. -/
theorem C1_create_renderer_dpi_type_error :
    create_renderer docA4mm (some 300) = .error .typeError
  ∧ create_renderer docA4mm none = .ok ⟨210, 297⟩ := by
  exact ⟨by with_unfolding_all decide, by with_unfolding_all decide⟩

/-- C2: for every document whose viewbox resolves and whose detected unit is
one of the six supported units, `calculate_pixel_size` yields
`round(dimension * inchesPerUnit[unit] * dpi)` per the spec's fixed table and
`calculate_scale` yields pixel width over viewbox width (1 when that width
is 0). -/
theorem C2_compute_render_target (doc : SVGDoc) (x y w h : ℚ) (u : String) (dpi : ℚ)
    (hvb : get_viewbox doc = .ok (x, y, w, h))
    (hu : get_document_unit doc = u)
    (hmem : u ∈ ["px", "pt", "pc", "mm", "cm", "in"]) :
    calculate_pixel_size doc dpi =
      .ok (pyRound (w * inchesPerUnit u * dpi), pyRound (h * inchesPerUnit u * dpi))
  ∧ calculate_scale doc dpi =
      .ok (if w = 0 then 1 else (pyRound (w * inchesPerUnit u * dpi) : ℚ) / w) := by
  have htab : unit_to_inches u = inchesPerUnit u := by
    fin_cases hmem <;> rfl
  have hps : calculate_pixel_size doc dpi =
      .ok (pyRound (w * inchesPerUnit u * dpi), pyRound (h * inchesPerUnit u * dpi)) := by
    unfold calculate_pixel_size
    rw [hvb, hu, htab]
  refine ⟨hps, ?_⟩
  unfold calculate_scale
  rw [hvb, hps]
  by_cases hw : w = 0
  · simp [hw]
  · simp [hw]

/-- C2 witness: the A4 document declared as 210mm × 297mm at 300 DPI yields
pixel size (2480, 3508) — in particular the spec's `round(210 / 25.4 * 300)
= 2480` — and scale 2480/210. -/
theorem C2_compute_render_target_witness :
    calculate_pixel_size docA4mm 300 = .ok (2480, 3508)
  ∧ calculate_scale docA4mm 300 = .ok (2480 / 210) := by
  have h := C2_compute_render_target docA4mm 0 0 210 297 "mm" 300
    (by with_unfolding_all decide) (by with_unfolding_all decide) (by decide)
  exact ⟨h.1.trans (by with_unfolding_all decide), h.2.trans (by with_unfolding_all decide)⟩

set_option maxHeartbeats 1000000

/-- C3: the claim requires path interpretation to consume the whole token
stream or fail with `MalformedPathData`, never reading past the end of the
token array.  The code violates this: on `"M5"` (a move command with a single
coordinate) the loop evaluates `tokens[i + 1]` with `i + 1` equal to the
token-array length, raising `IndexError` instead of a `MalformedPathData`
failure — the under-indexing defect the spec's §9 flags as a bug to fix. -/
theorem C3_malformed_path_underindexes :
    tokenize "M5" = [.cmd 'M', .num 5]
  ∧ parse_path_data "M5" = ([], some .indexError) := by
  exact ⟨by with_unfolding_all decide, by with_unfolding_all decide⟩

/-- C4: the claim's implicit-repetition rule (after the first pair under
`M`/`m` the active command degrades to `L`/`l`) does hold, but the claimed
output for `"M0 0 10 10 20 0 Z"` is wrong on the code: the trailing `Z` only
sets the active command (the loop `continue`s on command letters), and the
`close_path` branch runs only when a number token follows a `z`, so the
interpreter emits `MoveTo(0,0), LineTo(10,10), LineTo(20,0)` with no final
`ClosePath`. -/
theorem C4_implicit_lineto_without_closepath :
    parse_path_data "M0 0 10 10 20 0 Z" =
      ([.moveTo 0 0, .lineTo 10 10, .lineTo 20 0], none) := by
  with_unfolding_all decide

/-- C5: interpreting the relative path `"m5 5 l5 0 l0 5 z"` from the initial
current point `(0, 0)` produces exactly the same primitives with the same
absolute coordinates as the absolute path `"M5 5 L10 5 L10 10 Z"` (both yield
`MoveTo(5,5), LineTo(10,5), LineTo(10,10)` and no error). -/
theorem C5_relative_equals_absolute :
    parse_path_data "m5 5 l5 0 l0 5 z" = parse_path_data "M5 5 L10 5 L10 10 Z"
  ∧ parse_path_data "m5 5 l5 0 l0 5 z" =
      ([.moveTo 5 5, .lineTo 10 5, .lineTo 10 10], none) := by
  exact ⟨by with_unfolding_all decide, by with_unfolding_all decide⟩

/-- C6: `parse_style` layers presentation attributes under inline style
declarations — any key bound by the inline `style` attribute keeps its
inline value in the final map — and on an element with both
`style="fill:#000000"` and attribute `fill="#ffffff"` the resolved `fill`
is `#000000`. -/
theorem C6_inline_style_wins :
    (∀ (e : Element) (k v : String),
      dictGet (inline_styles e) k = some v → dictGet (parse_style e) k = some v)
  ∧ dictGet (parse_style elemFillBoth) "fill" = some "#000000" := by
  refine ⟨fun e k v h => ?_, by with_unfolding_all decide⟩
  exact dictGet_parse_fold e svg_style_attrs (inline_styles e) k v h

/-- C6 witness: on the element with `style="stroke:blue"` and attribute
`stroke="red"`, the inline binding `stroke ↦ blue` survives into the final
property map. -/
theorem C6_inline_style_wins_witness :
    dictGet (parse_style elemStrokeBoth) "stroke" = some "blue" := by
  exact C6_inline_style_wins.1 elemStrokeBoth "stroke" "blue" (by with_unfolding_all decide)

/-- C7: `get_opacity` returns 1.0 on the empty string; on input ending in
`%` whose prefix parses it returns the prefix divided by 100; on other
parsable input it returns the float clamped to [0, 1] (`"50%"` and `"0.5"`
both give 0.5, `"150"` gives 1.0, `"-10"` gives 0.0); and input that fails
to parse raises `InvalidOpacity`. -/
theorem C7_decode_opacity :
    get_opacity "" = .ok 1
  ∧ (∀ (s : String) (x : ℚ), s ≠ "" →
      endsWithChars (trimChars s.data) ['%'] = true →
      pyFloat (String.mk ((trimChars s.data).take ((trimChars s.data).length - 1))) = some x →
      get_opacity s = .ok (x / 100))
  ∧ (∀ (s : String) (x : ℚ), s ≠ "" →
      endsWithChars (trimChars s.data) ['%'] = false →
      pyFloat (String.mk (trimChars s.data)) = some x →
      get_opacity s = .ok (max 0 (min 1 x)))
  ∧ get_opacity "50%" = .ok (1 / 2)
  ∧ get_opacity "0.5" = .ok (1 / 2)
  ∧ get_opacity "150" = .ok 1
  ∧ get_opacity "-10" = .ok 0
  ∧ (∀ s : String, s ≠ "" →
      endsWithChars (trimChars s.data) ['%'] = true →
      pyFloat (String.mk ((trimChars s.data).take ((trimChars s.data).length - 1))) = none →
      get_opacity s = .error .invalidOpacity)
  ∧ (∀ s : String, s ≠ "" →
      endsWithChars (trimChars s.data) ['%'] = false →
      pyFloat (String.mk (trimChars s.data)) = none →
      get_opacity s = .error .invalidOpacity) := by
  refine ⟨by with_unfolding_all decide, ?_, ?_, by with_unfolding_all decide,
    by with_unfolding_all decide, by with_unfolding_all decide,
    by with_unfolding_all decide, ?_, ?_⟩
  · intro s x hne hpct hparse
    simp [get_opacity, hne, hpct, hparse]
  · intro s x hne hpct hparse
    simp [get_opacity, hne, hpct, hparse]
  · intro s hne hpct hparse
    simp [get_opacity, hne, hpct, hparse]
  · intro s hne hpct hparse
    simp [get_opacity, hne, hpct, hparse]

/-- C7 witness: the percent branch applied at `"75%"` gives 75/100. -/
theorem C7_decode_opacity_witness : get_opacity "75%" = .ok (75 / 100) := by
  exact C7_decode_opacity.2.1 "75%" 75 (by decide) (by with_unfolding_all decide)
    (by with_unfolding_all decide)

/-- C8 counterexample: the claim says every returned Viewbox has
non-negative width and height; but `get_viewbox` performs no sign check, and
the viewBox string `"0 0 -5 10"` produces a Viewbox with width -5 < 0. -/
theorem C8_negative_width_counterexample :
    get_viewbox docNegViewBox = .ok (0, 0, -5, 10) ∧ ¬ (0 ≤ (-5 : ℚ)) := by
  exact ⟨by with_unfolding_all decide, by norm_num⟩

/-- C8 (amended): a Viewbox parsed from a four-number viewBox string carries
exactly the four parsed values, with no sign validation — so negative widths
and heights pass through. -/
theorem C8_viewbox_unvalidated (doc : SVGDoc) (s : String) (x y w h : ℚ)
    (hvb : doc.viewBox = some s) (hs : s ≠ "")
    (hlen : (splitWS s.data).length = 4)
    (hparse : (splitWS s.data).mapM pyFloatChars = some [x, y, w, h]) :
    get_viewbox doc = .ok (x, y, w, h) := by
  have hloop : List.mapM.loop pyFloatChars (splitWS s.data) [] = some [x, y, w, h] := hparse
  simp [get_viewbox, hvb, hs, hlen, hloop]

/-- C8 witness: the amended statement applied to the negative-width
viewBox string. -/
theorem C8_viewbox_unvalidated_witness :
    get_viewbox docNegViewBox = .ok (0, 0, -5, 10) := by
  exact C8_viewbox_unvalidated docNegViewBox "0 0 -5 10" 0 0 (-5) 10
    rfl (by decide) (by with_unfolding_all decide) (by with_unfolding_all decide)

/-- C9: `get_layer_names` returns, in document order, each layer's label or —
when the label is absent or empty — its id (layers with neither contribute
nothing); and `get_layer` on an identifier matching no layer's label and no
layer's id fails with the `LayerNotFound` message that enumerates all the
available layer names. -/
theorem C9_layer_names_and_lookup :
    (∀ d : LayerDoc, get_layer_names d = d.layers.filterMap layerDisplayName)
  ∧ (∀ (d : LayerDoc) (identifier : String),
      (∀ l ∈ d.layers, l.label ≠ some identifier) →
      (∀ l ∈ d.layers, l.id ≠ some identifier) →
      get_layer d identifier = .error (layerNotFoundMsg identifier (get_layer_names d))) := by
  constructor
  · intro d
    simpa using names_foldl_eq d.layers []
  · intro d identifier h1 h2
    have hn : get_layer_by_name d identifier = none := by
      unfold get_layer_by_name
      rw [List.find?_eq_none]
      intro l hl
      simp only [beq_iff_eq]
      exact h1 l hl
    have hi : get_layer_by_id d identifier = none := by
      unfold get_layer_by_id
      rw [List.find?_eq_none]
      intro l hl
      simp only [beq_iff_eq]
      exact h2 l hl
    unfold get_layer
    rw [hn, hi]

/-- C9 witness: looking up `"missing"` in the two-layer document fails with
the message listing both labels. -/
theorem C9_layer_lookup_witness :
    get_layer docTwoLayers "missing" =
      .error ("Layer " ++ squote ++ "missing" ++ squote ++
        " not found. Available layers: Layer A, Layer B") := by
  have h := C9_layer_names_and_lookup.2 docTwoLayers "missing"
    (by with_unfolding_all decide) (by with_unfolding_all decide)
  rw [h]
  with_unfolding_all decide

/-- C10: when the resolved property map has no `fill` key, or maps `fill` to
the empty string, `get_fill` reports no fill — exactly as it does for the
explicit value `"none"` — and likewise for `stroke` and `get_stroke`. -/
theorem C10_absent_paint_is_none :
    (∀ e : Element, dictGet (parse_style e) "fill" = none → get_fill e = .ok none)
  ∧ (∀ e : Element, dictGet (parse_style e) "fill" = some "" → get_fill e = .ok none)
  ∧ (∀ e : Element, dictGet (parse_style e) "fill" = some "none" → get_fill e = .ok none)
  ∧ (∀ e : Element, dictGet (parse_style e) "stroke" = none → get_stroke e = .ok none)
  ∧ (∀ e : Element, dictGet (parse_style e) "stroke" = some "" → get_stroke e = .ok none)
  ∧ (∀ e : Element, dictGet (parse_style e) "stroke" = some "none" → get_stroke e = .ok none) := by
  refine ⟨fun e h => ?_, fun e h => ?_, fun e h => ?_, fun e h => ?_, fun e h => ?_, fun e h => ?_⟩
  · simp [get_fill, h]
  · simp [get_fill, h]
  · simp [get_fill, h]; with_unfolding_all decide
  · simp [get_stroke, h]
  · simp [get_stroke, h]
  · simp [get_stroke, h]; with_unfolding_all decide

/-- C10 witness: the unstyled element paints neither channel. -/
theorem C10_absent_paint_is_none_witness :
    get_fill elemBare = .ok none ∧ get_stroke elemBare = .ok none := by
  exact ⟨C10_absent_paint_is_none.1 elemBare (by with_unfolding_all decide),
    C10_absent_paint_is_none.2.2.2.1 elemBare (by with_unfolding_all decide)⟩
